import Mathlib

/-!
Verification of `scripts/audit-to-sarif.py`: a converter from cargo-audit
JSON output to SARIF 2.1.0.

The script is embedded shallowly:
* JSON values are the inductive `JValue` (numbers as rationals; the script
  performs no arithmetic, it only passes numeric fields through).
* Python `x.get(key, default)` is `dictGet`: on a mapping it returns the
  stored value (or the default when the key is absent); on any non-mapping
  value it raises `AttributeError`, modelled by `Except.error`.
* `str.lower()` is `str_lower` (character-wise ASCII lowering; the severity
  keywords it is compared against are ASCII); calling it on a non-string
  raises `AttributeError`.
* `for x in v` is `pyIter`: lists yield their elements, strings their
  characters, mappings their keys; other values raise `TypeError`.
* f-string interpolation `str(x)` is `pyStr` (exact on strings, the only
  values the claims interpolate; containers render in Python repr style).
* The CLI `main` is modelled over an abstract file system mapping paths to
  parsed JSON documents; reads and writes are recorded explicitly.
-/

/-- A JSON value, as produced by Python's `json.load`. -/
inductive JValue : Type where
  | str (s : String)
  | num (q : ℚ)
  | bool (b : Bool)
  | null
  | arr (xs : List JValue)
  | obj (fields : List (String × JValue))

/-- The Python exceptions the script can raise while converting. -/
inductive PyError : Type where
  | attributeError
  | typeError

/-- Python `x.get(key, default)`: defined on mappings, raises
`AttributeError` on every other value (`'str' object has no attribute
'get'`, etc.). -/
def dictGet : JValue → String → JValue → Except PyError JValue
  | JValue.obj fs, key, dflt => Except.ok ((fs.lookup key).getD dflt)
  | _, _, _ => Except.error PyError.attributeError

/-- The severity table of `convert_severity` (source lines 11-17). -/
def severity_map : List (String × String) :=
  [("critical", "error"), ("high", "error"), ("medium", "warning"),
   ("low", "note"), ("informational", "note")]

/-- ASCII lowering of one character, as Python `str.lower` acts on the
ASCII range (the severity keywords are all ASCII). -/
def char_lower (c : Char) : Char :=
  if 65 ≤ c.toNat ∧ c.toNat ≤ 90 then Char.ofNat (c.toNat + 32) else c

/-- Python `severity.lower()`, character by character. -/
def str_lower (s : String) : String :=
  String.mk (s.data.map char_lower)

/-- `convert_severity` (source lines 9-18): `severity_map.get(severity.lower(), "warning")`. -/
def convert_severity (severity : String) : String :=
  (severity_map.lookup (str_lower severity)).getD "warning"

/-- Applying `convert_severity` to a JSON value: `severity.lower()` raises
`AttributeError` unless the value is a string. -/
def convert_severity_j : JValue → Except PyError String
  | JValue.str s => Except.ok (convert_severity s)
  | _ => Except.error PyError.attributeError

mutual

/-- Python `repr` of a JSON value (used for values nested inside containers). -/
def pyRepr : JValue → String
  | JValue.str s => "\x27" ++ s ++ "\x27"
  | JValue.num q => toString q
  | JValue.bool true => "True"
  | JValue.bool false => "False"
  | JValue.null => "None"
  | JValue.arr xs => "[" ++ pyReprList xs ++ "]"
  | JValue.obj fs => "\x7b" ++ pyReprFields fs ++ "\x7d"

/-- Comma-separated `repr`s of list elements. -/
def pyReprList : List JValue → String
  | [] => ""
  | [x] => pyRepr x
  | x :: y :: xs => pyRepr x ++ ", " ++ pyReprList (y :: xs)

/-- Comma-separated `repr`s of mapping entries. -/
def pyReprFields : List (String × JValue) → String
  | [] => ""
  | [(k, v)] => "\x27" ++ k ++ "\x27: " ++ pyRepr v
  | (k, v) :: g :: fs => "\x27" ++ k ++ "\x27: " ++ pyRepr v ++ ", " ++ pyReprFields (g :: fs)

end

/-- Python `str` of a JSON value, as used by f-string interpolation. -/
def pyStr : JValue → String
  | JValue.str s => s
  | v => pyRepr v

/-- Python `for x in v`: lists yield elements, strings characters, mappings
their keys; numbers, booleans and `None` raise `TypeError`. -/
def pyIter : JValue → Except PyError (List JValue)
  | JValue.arr xs => Except.ok xs
  | JValue.str s => Except.ok (s.toList.map (fun c => JValue.str (String.singleton c)))
  | JValue.obj fs => Except.ok (fs.map (fun kv => JValue.str kv.1))
  | _ => Except.error PyError.typeError

/-- `create_sarif_result` (source lines 20-51), with `vuln.get` accesses in
the evaluation order of the Python function. -/
def create_sarif_result (vuln : JValue) : Except PyError JValue := do
  let advisory ← dictGet vuln "advisory" (JValue.obj [])
  let package ← dictGet vuln "package" (JValue.obj [])
  let ruleId ← dictGet advisory "id" (JValue.str "UNKNOWN")
  let sev ← dictGet vuln "severity" (JValue.str "medium")
  let level ← convert_severity_j sev
  let desc ← dictGet advisory "description" (JValue.str "Unknown vulnerability")
  let pname ← dictGet package "name" (JValue.str "")
  let pver ← dictGet package "version" (JValue.str "")
  let cvss ← dictGet vuln "cvss" (JValue.obj [])
  let score ← dictGet cvss "score" (JValue.num 5)
  pure (JValue.obj [
    ("ruleId", ruleId),
    ("level", JValue.str level),
    ("message", JValue.obj [("text", desc)]),
    ("locations", JValue.arr [JValue.obj [("physicalLocation", JValue.obj [
        ("artifactLocation", JValue.obj [("uri", JValue.str "Cargo.toml")]),
        ("region", JValue.obj [("startLine", JValue.num 1), ("startColumn", JValue.num 1)])])]]),
    ("partialFingerprints", JValue.obj [("packageName", pname), ("packageVersion", pver)]),
    ("properties", JValue.obj [
      ("security-severity", score),
      ("tags", JValue.arr [JValue.str "security", JValue.str "dependency", JValue.str "vulnerability"]),
      ("precision", JValue.str "very-high")])])

/-- `create_sarif_rule` (source lines 53-74), with `get` accesses in the
evaluation order of the Python function. -/
def create_sarif_rule (vuln : JValue) : Except PyError JValue := do
  let advisory ← dictGet vuln "advisory" (JValue.obj [])
  let rid ← dictGet advisory "id" (JValue.str "UNKNOWN")
  let nameV ← dictGet advisory "title" (JValue.str "Unknown vulnerability")
  let shortV ← dictGet advisory "title" (JValue.str "Unknown vulnerability")
  let fullV ← dictGet advisory "description" (JValue.str "")
  let package ← dictGet vuln "package" (JValue.obj [])
  let pname ← dictGet package "name" (JValue.str "package")
  let mdTitle ← dictGet advisory "title" (JValue.str "Vulnerability")
  let mdDesc ← dictGet advisory "description" (JValue.str "")
  let mdUrl ← dictGet advisory "url" (JValue.str "")
  let cvss ← dictGet vuln "cvss" (JValue.obj [])
  let score ← dictGet cvss "score" (JValue.num 5)
  pure (JValue.obj [
    ("id", rid),
    ("name", nameV),
    ("shortDescription", JValue.obj [("text", shortV)]),
    ("fullDescription", JValue.obj [("text", fullV)]),
    ("help", JValue.obj [
      ("text", JValue.str ("Update " ++ pyStr pname ++ " to a patched version")),
      ("markdown", JValue.str ("## " ++ pyStr mdTitle ++ "\n\n" ++ pyStr mdDesc ++
        "\n\n### References\n- " ++ pyStr mdUrl))]),
    ("properties", JValue.obj [
      ("security-severity", score),
      ("tags", JValue.arr [JValue.str "security", JValue.str "vulnerability"])])])

/-- The SARIF document skeleton of `convert_audit_to_sarif` (source lines
80-95) with the rule and result lists filled in; appending into the empty
skeleton lists yields exactly this document. -/
def mkSarifDoc (rules results : List JValue) : JValue :=
  JValue.obj [
    ("$schema", JValue.str "https://json.schemastore.org/sarif-2.1.0.json"),
    ("version", JValue.str "2.1.0"),
    ("runs", JValue.arr [JValue.obj [
      ("tool", JValue.obj [("driver", JValue.obj [
        ("name", JValue.str "cargo-audit"),
        ("version", JValue.str "0.18.0"),
        ("informationUri", JValue.str "https://github.com/RustSec/rustsec"),
        ("rules", JValue.arr rules)])]),
      ("results", JValue.arr results),
      ("columnKind", JValue.str "utf16CodeUnits")]])]

/-- Source line 78: `audit_data.get("vulnerabilities", {}).get("list", [])`,
followed by the iteration the `for` loop performs over the resulting value. -/
def extract_vulns (audit_data : JValue) : Except PyError (List JValue) := do
  let vulnsVal ← dictGet audit_data "vulnerabilities" (JValue.obj [])
  let listVal ← dictGet vulnsVal "list" (JValue.arr [])
  pyIter listVal

/-- The loop of source lines 98-100: for each vulnerability, in order, build
its rule and then its result; the first exception aborts the whole loop. -/
def build_pairs : List JValue → Except PyError (List (JValue × JValue))
  | [] => Except.ok []
  | v :: vs => do
    let r ← create_sarif_rule v
    let s ← create_sarif_result v
    let rest ← build_pairs vs
    pure ((r, s) :: rest)

/-- `convert_audit_to_sarif` (source lines 76-102). -/
def convert_audit_to_sarif (audit_data : JValue) : Except PyError JValue := do
  let vulns ← extract_vulns audit_data
  let pairs ← build_pairs vulns
  pure (mkSarifDoc (pairs.map Prod.fst) (pairs.map Prod.snd))

/-- Field projection on an output JSON object: the stored value, `null` when
the key is absent or the value is not an object. -/
def jget : JValue → String → JValue
  | JValue.obj fs, key => (fs.lookup key).getD JValue.null
  | _, _ => JValue.null

/-- The single run of a SARIF document: `doc["runs"][0]`. -/
def sarifRun (doc : JValue) : JValue :=
  match jget doc "runs" with
  | JValue.arr (r :: _) => r
  | _ => JValue.null

/-- The rule list of a SARIF document: `doc["runs"][0]["tool"]["driver"]["rules"]`. -/
def sarifRules (doc : JValue) : List JValue :=
  match jget (jget (jget (sarifRun doc) "tool") "driver") "rules" with
  | JValue.arr xs => xs
  | _ => []

/-- The result list of a SARIF document: `doc["runs"][0]["results"]`. -/
def sarifResults (doc : JValue) : List JValue :=
  match jget (sarifRun doc) "results" with
  | JValue.arr xs => xs
  | _ => []

/-- Outcome of one CLI invocation: exit code, lines printed to stdout, the
input paths the program tried to open for reading, and the files written. -/
structure CliResult : Type where
  exitCode : Nat
  stdout : List String
  reads : List String
  written : List (String × JValue)

/-- Rendering of the caught exception in `print(f"Error: {e}")`. -/
def error_message : PyError → String
  | PyError.attributeError => "Error: AttributeError"
  | PyError.typeError => "Error: TypeError"

/-- `main` (source lines 104-125). File I/O is modelled abstractly: `files`
maps a path to its parsed JSON document, `none` standing for a missing or
unreadable file or invalid JSON; serialization of the output document is
deterministic, so the written file is recorded as the document itself.
(Named `main_entry` because Lean reserves `main` for `IO` entry points.) -/
def main_entry (argv : List String) (files : String → Option JValue) : CliResult :=
  if argv.length ≠ 3 then
    { exitCode := 1,
      stdout := ["Usage: audit-to-sarif.py <input.json> <output.sarif>"],
      reads := [], written := [] }
  else
    let input_file := argv.getD 1 ""
    let output_file := argv.getD 2 ""
    match files input_file with
    | none =>
      { exitCode := 1, stdout := ["Error: could not read input"],
        reads := [input_file], written := [] }
    | some audit_data =>
      match convert_audit_to_sarif audit_data with
      | Except.error e =>
        { exitCode := 1, stdout := [error_message e],
          reads := [input_file], written := [] }
      | Except.ok sarif =>
        { exitCode := 0,
          stdout := ["Successfully converted " ++ input_file ++ " to " ++ output_file],
          reads := [input_file], written := [(output_file, sarif)] }

/-- Modelled from the spec (section 4.1): the severity table stated there,
written directly as the case-insensitive mapping the spec describes. Used
only to compare `convert_severity` against the spec's words. -/
def severity_level_spec (s : String) : String :=
  if str_lower s = "critical" ∨ str_lower s = "high" then "error"
  else if str_lower s = "medium" then "warning"
  else if str_lower s = "low" ∨ str_lower s = "informational" then "note"
  else "warning"

/-- The example vulnerability of the spec's section 8 scenario. -/
def scenario_vuln : JValue := JValue.obj [
  ("advisory", JValue.obj [
    ("id", JValue.str "RUSTSEC-2023-0001"), ("title", JValue.str "Bad crate"),
    ("description", JValue.str "desc"), ("url", JValue.str "http://x")]),
  ("package", JValue.obj [("name", JValue.str "foo"), ("version", JValue.str "1.2.3")]),
  ("severity", JValue.str "high"),
  ("cvss", JValue.obj [("score", JValue.num 8.1)])]

/-- The example audit report of the spec's section 8 scenario. -/
def scenario_input : JValue :=
  JValue.obj [("vulnerabilities", JValue.obj [("list", JValue.arr [scenario_vuln])])]

/-- The rule the converter builds for `scenario_vuln`. -/
def scenario_rule : JValue := JValue.obj [
  ("id", JValue.str "RUSTSEC-2023-0001"),
  ("name", JValue.str "Bad crate"),
  ("shortDescription", JValue.obj [("text", JValue.str "Bad crate")]),
  ("fullDescription", JValue.obj [("text", JValue.str "desc")]),
  ("help", JValue.obj [
    ("text", JValue.str "Update foo to a patched version"),
    ("markdown", JValue.str "## Bad crate\n\ndesc\n\n### References\n- http://x")]),
  ("properties", JValue.obj [
    ("security-severity", JValue.num 8.1),
    ("tags", JValue.arr [JValue.str "security", JValue.str "vulnerability"])])]

/-- The result the converter builds for `scenario_vuln`. -/
def scenario_result : JValue := JValue.obj [
  ("ruleId", JValue.str "RUSTSEC-2023-0001"),
  ("level", JValue.str "error"),
  ("message", JValue.obj [("text", JValue.str "desc")]),
  ("locations", JValue.arr [JValue.obj [("physicalLocation", JValue.obj [
    ("artifactLocation", JValue.obj [("uri", JValue.str "Cargo.toml")]),
    ("region", JValue.obj [("startLine", JValue.num 1), ("startColumn", JValue.num 1)])])]]),
  ("partialFingerprints", JValue.obj [
    ("packageName", JValue.str "foo"), ("packageVersion", JValue.str "1.2.3")]),
  ("properties", JValue.obj [
    ("security-severity", JValue.num 8.1),
    ("tags", JValue.arr [JValue.str "security", JValue.str "dependency", JValue.str "vulnerability"]),
    ("precision", JValue.str "very-high")])]

/-- The SARIF document the converter produces for `scenario_input`. -/
def scenario_doc : JValue := mkSarifDoc [scenario_rule] [scenario_result]

/-- The payload of a successful conversion step (`null` on an error); lets a
field equation name the built record without binding it existentially. -/
def okValue : Except PyError JValue → JValue
  | Except.ok v => v
  | Except.error _ => JValue.null

/-- The result built from a vulnerability mapping carrying none of the four
optional keys: every field is the documented default. -/
def default_result : JValue := JValue.obj [
  ("ruleId", JValue.str "UNKNOWN"),
  ("level", JValue.str "warning"),
  ("message", JValue.obj [("text", JValue.str "Unknown vulnerability")]),
  ("locations", JValue.arr [JValue.obj [("physicalLocation", JValue.obj [
    ("artifactLocation", JValue.obj [("uri", JValue.str "Cargo.toml")]),
    ("region", JValue.obj [("startLine", JValue.num 1), ("startColumn", JValue.num 1)])])]]),
  ("partialFingerprints", JValue.obj [
    ("packageName", JValue.str ""), ("packageVersion", JValue.str "")]),
  ("properties", JValue.obj [
    ("security-severity", JValue.num 5),
    ("tags", JValue.arr [JValue.str "security", JValue.str "dependency", JValue.str "vulnerability"]),
    ("precision", JValue.str "very-high")])]

/-- The rule built from a vulnerability mapping carrying none of the four
optional keys: every field is the documented default. -/
def default_rule : JValue := JValue.obj [
  ("id", JValue.str "UNKNOWN"),
  ("name", JValue.str "Unknown vulnerability"),
  ("shortDescription", JValue.obj [("text", JValue.str "Unknown vulnerability")]),
  ("fullDescription", JValue.obj [("text", JValue.str "")]),
  ("help", JValue.obj [
    ("text", JValue.str "Update package to a patched version"),
    ("markdown", JValue.str "## Vulnerability\n\n\n\n### References\n- ")]),
  ("properties", JValue.obj [
    ("security-severity", JValue.num 5),
    ("tags", JValue.arr [JValue.str "security", JValue.str "vulnerability"])])]

/-! ## Helper lemmas about the `Except` embedding -/

@[simp]
lemma ok_bind {α β : Type} (a : α) (f : α → Except PyError β) :
    (Except.ok a >>= f) = f a := rfl

@[simp]
lemma error_bind {α β : Type} (e : PyError) (f : α → Except PyError β) :
    ((Except.error e : Except PyError α) >>= f) = Except.error e := rfl

@[simp]
lemma pure_eq_ok {α : Type} (a : α) : (pure a : Except PyError α) = Except.ok a := rfl

lemma except_bind_ok {α β : Type} {x : Except PyError α} {f : α → Except PyError β} {b : β}
    (h : x >>= f = Except.ok b) : ∃ a, x = Except.ok a ∧ f a = Except.ok b := by
  cases x with
  | error e => simp at h
  | ok a => exact ⟨a, rfl, by simpa using h⟩

lemma getD_map {α β : Type} (f : α → β) :
    ∀ (l : List α) (i : Nat) (d : α), (l.map f).getD i (f d) = f (l.getD i d) := by
  intro l
  induction l with
  | nil => intro i d; simp [List.getD]
  | cons a l ih =>
    intro i d
    cases i with
    | zero => rfl
    | succ j => exact ih j d

lemma forall2_getD {α β : Type} {R : α → β → Prop} {l₁ : List α} {l₂ : List β}
    (h : List.Forall₂ R l₁ l₂) (d₁ : α) (d₂ : β) :
    ∀ i, i < l₁.length → R (l₁.getD i d₁) (l₂.getD i d₂) := by
  induction h with
  | nil => intro i hi; simp at hi
  | cons hab ht ih =>
    intro i hi
    cases i with
    | zero => simpa using hab
    | succ j => exact ih j (by simpa using hi)

/-! ## Structure of a successful conversion -/

lemma build_pairs_spec : ∀ (vs : List JValue) (ps : List (JValue × JValue)),
    build_pairs vs = Except.ok ps →
    List.Forall₂ (fun v p => create_sarif_rule v = Except.ok p.1 ∧
      create_sarif_result v = Except.ok p.2) vs ps := by
  intro vs
  induction vs with
  | nil =>
    intro ps h
    unfold build_pairs at h
    injection h with h
    subst h
    exact List.Forall₂.nil
  | cons v vs ih =>
    intro ps h
    unfold build_pairs at h
    obtain ⟨r, hr, h⟩ := except_bind_ok h
    obtain ⟨s, hs, h⟩ := except_bind_ok h
    obtain ⟨rest, hrest, h⟩ := except_bind_ok h
    rw [pure_eq_ok] at h
    injection h with h
    subst h
    exact List.Forall₂.cons ⟨hr, hs⟩ (ih rest hrest)

lemma convert_ok_inv (a doc : JValue) (h : convert_audit_to_sarif a = Except.ok doc) :
    ∃ vulns ps, extract_vulns a = Except.ok vulns ∧ build_pairs vulns = Except.ok ps ∧
      doc = mkSarifDoc (ps.map Prod.fst) (ps.map Prod.snd) := by
  unfold convert_audit_to_sarif at h
  obtain ⟨vulns, hv, h⟩ := except_bind_ok h
  obtain ⟨ps, hp, h⟩ := except_bind_ok h
  rw [pure_eq_ok] at h
  injection h with h
  exact ⟨vulns, ps, hv, hp, h.symm⟩

lemma sarifRules_mk (rules results : List JValue) :
    sarifRules (mkSarifDoc rules results) = rules := rfl

lemma sarifResults_mk (rules results : List JValue) :
    sarifResults (mkSarifDoc rules results) = results := rfl

/-! ## Evaluation of the builders on well-formed vulnerability mappings -/

lemma create_sarif_result_eval (fs afs pfs cfs : List (String × JValue)) (sev : String)
    (h1 : (fs.lookup "advisory").getD (JValue.obj []) = JValue.obj afs)
    (h2 : (fs.lookup "package").getD (JValue.obj []) = JValue.obj pfs)
    (h3 : (fs.lookup "severity").getD (JValue.str "medium") = JValue.str sev)
    (h4 : (fs.lookup "cvss").getD (JValue.obj []) = JValue.obj cfs) :
    create_sarif_result (JValue.obj fs) = Except.ok (JValue.obj [
      ("ruleId", (afs.lookup "id").getD (JValue.str "UNKNOWN")),
      ("level", JValue.str (convert_severity sev)),
      ("message", JValue.obj [("text",
        (afs.lookup "description").getD (JValue.str "Unknown vulnerability"))]),
      ("locations", JValue.arr [JValue.obj [("physicalLocation", JValue.obj [
          ("artifactLocation", JValue.obj [("uri", JValue.str "Cargo.toml")]),
          ("region", JValue.obj [("startLine", JValue.num 1), ("startColumn", JValue.num 1)])])]]),
      ("partialFingerprints", JValue.obj [
        ("packageName", (pfs.lookup "name").getD (JValue.str "")),
        ("packageVersion", (pfs.lookup "version").getD (JValue.str ""))]),
      ("properties", JValue.obj [
        ("security-severity", (cfs.lookup "score").getD (JValue.num 5)),
        ("tags", JValue.arr [JValue.str "security", JValue.str "dependency", JValue.str "vulnerability"]),
        ("precision", JValue.str "very-high")])]) := by
  simp only [create_sarif_result, dictGet, ok_bind, h1, h2, h3, h4, convert_severity_j,
    pure_eq_ok]

lemma create_sarif_rule_eval (fs afs pfs cfs : List (String × JValue))
    (h1 : (fs.lookup "advisory").getD (JValue.obj []) = JValue.obj afs)
    (h2 : (fs.lookup "package").getD (JValue.obj []) = JValue.obj pfs)
    (h4 : (fs.lookup "cvss").getD (JValue.obj []) = JValue.obj cfs) :
    create_sarif_rule (JValue.obj fs) = Except.ok (JValue.obj [
      ("id", (afs.lookup "id").getD (JValue.str "UNKNOWN")),
      ("name", (afs.lookup "title").getD (JValue.str "Unknown vulnerability")),
      ("shortDescription", JValue.obj [("text",
        (afs.lookup "title").getD (JValue.str "Unknown vulnerability"))]),
      ("fullDescription", JValue.obj [("text",
        (afs.lookup "description").getD (JValue.str ""))]),
      ("help", JValue.obj [
        ("text", JValue.str ("Update " ++
          pyStr ((pfs.lookup "name").getD (JValue.str "package")) ++ " to a patched version")),
        ("markdown", JValue.str ("## " ++
          pyStr ((afs.lookup "title").getD (JValue.str "Vulnerability")) ++ "\n\n" ++
          pyStr ((afs.lookup "description").getD (JValue.str "")) ++
          "\n\n### References\n- " ++
          pyStr ((afs.lookup "url").getD (JValue.str ""))))]),
      ("properties", JValue.obj [
        ("security-severity", (cfs.lookup "score").getD (JValue.num 5)),
        ("tags", JValue.arr [JValue.str "security", JValue.str "vulnerability"])])]) := by
  simp only [create_sarif_rule, dictGet, ok_bind, h1, h2, h4, pure_eq_ok]

/-! ## The rule id shared by a rule and its result -/

lemma result_ruleId_inv (v s : JValue) (h : create_sarif_result v = Except.ok s) :
    ∃ advisory rid, dictGet v "advisory" (JValue.obj []) = Except.ok advisory ∧
      dictGet advisory "id" (JValue.str "UNKNOWN") = Except.ok rid ∧
      jget s "ruleId" = rid := by
  unfold create_sarif_result at h
  obtain ⟨advisory, hA, h⟩ := except_bind_ok h
  obtain ⟨package, hP, h⟩ := except_bind_ok h
  obtain ⟨rid, hI, h⟩ := except_bind_ok h
  obtain ⟨sev, hS, h⟩ := except_bind_ok h
  obtain ⟨level, hL, h⟩ := except_bind_ok h
  obtain ⟨desc, hD, h⟩ := except_bind_ok h
  obtain ⟨pname, hN, h⟩ := except_bind_ok h
  obtain ⟨pver, hV, h⟩ := except_bind_ok h
  obtain ⟨cvss, hC, h⟩ := except_bind_ok h
  obtain ⟨score, hSc, h⟩ := except_bind_ok h
  rw [pure_eq_ok] at h
  injection h with h
  subst h
  exact ⟨advisory, rid, hA, hI, rfl⟩

lemma rule_id_inv (v r : JValue) (h : create_sarif_rule v = Except.ok r) :
    ∃ advisory rid, dictGet v "advisory" (JValue.obj []) = Except.ok advisory ∧
      dictGet advisory "id" (JValue.str "UNKNOWN") = Except.ok rid ∧
      jget r "id" = rid := by
  unfold create_sarif_rule at h
  obtain ⟨advisory, hA, h⟩ := except_bind_ok h
  obtain ⟨rid, hI, h⟩ := except_bind_ok h
  obtain ⟨nameV, hN, h⟩ := except_bind_ok h
  obtain ⟨shortV, hSh, h⟩ := except_bind_ok h
  obtain ⟨fullV, hF, h⟩ := except_bind_ok h
  obtain ⟨package, hP, h⟩ := except_bind_ok h
  obtain ⟨pname, hPn, h⟩ := except_bind_ok h
  obtain ⟨mdTitle, hT, h⟩ := except_bind_ok h
  obtain ⟨mdDesc, hD, h⟩ := except_bind_ok h
  obtain ⟨mdUrl, hU, h⟩ := except_bind_ok h
  obtain ⟨cvss, hC, h⟩ := except_bind_ok h
  obtain ⟨score, hSc, h⟩ := except_bind_ok h
  rw [pure_eq_ok] at h
  injection h with h
  subst h
  exact ⟨advisory, rid, hA, hI, rfl⟩

lemma ruleId_matches (v r s : JValue) (hr : create_sarif_rule v = Except.ok r)
    (hs : create_sarif_result v = Except.ok s) : jget s "ruleId" = jget r "id" := by
  obtain ⟨a1, i1, hA1, hI1, e1⟩ := result_ruleId_inv v s hs
  obtain ⟨a2, i2, hA2, hI2, e2⟩ := rule_id_inv v r hr
  rw [hA1] at hA2
  injection hA2 with hA2
  subst hA2
  rw [hI1] at hI2
  injection hI2 with hI2
  subst hI2
  rw [e1, e2]

/-! ## Claim theorems -/

/-- C2: the severity mapper is total over strings and returns exactly the
spec's table: `"error"` for lowercase `"critical"`/`"high"`, `"warning"` for
`"medium"`, `"note"` for `"low"`/`"informational"`, and `"warning"` for every
other string; matching is case-insensitive via lowering. -/
theorem convert_severity_matches_spec (s : String) :
    convert_severity s = severity_level_spec s := by
  unfold convert_severity severity_level_spec severity_map
  by_cases h1 : str_lower s = "critical"
  · rw [h1]; decide
  by_cases h2 : str_lower s = "high"
  · rw [h2]; decide
  by_cases h3 : str_lower s = "medium"
  · rw [h3]; decide
  by_cases h4 : str_lower s = "low"
  · rw [h4]; decide
  by_cases h5 : str_lower s = "informational"
  · rw [h5]; decide
  have b1 : (str_lower s == "critical") = false := beq_eq_false_iff_ne.mpr h1
  have b2 : (str_lower s == "high") = false := beq_eq_false_iff_ne.mpr h2
  have b3 : (str_lower s == "medium") = false := beq_eq_false_iff_ne.mpr h3
  have b4 : (str_lower s == "low") = false := beq_eq_false_iff_ne.mpr h4
  have b5 : (str_lower s == "informational") = false := beq_eq_false_iff_ne.mpr h5
  simp [List.lookup, b1, b2, b3, b4, b5, h1, h2, h3, h4, h5]

/-- C3: a vulnerability mapping carrying none of `advisory`, `package`,
`severity`, `cvss` still yields a result and a rule, every field the
documented default: ids `"UNKNOWN"`, texts `"Unknown vulnerability"`, level
`"warning"` (from default severity `"medium"`), score `5.0`, empty-string
package fingerprints. -/
theorem builders_default_on_missing_keys (fs : List (String × JValue))
    (h1 : fs.lookup "advisory" = none) (h2 : fs.lookup "package" = none)
    (h3 : fs.lookup "severity" = none) (h4 : fs.lookup "cvss" = none) :
    create_sarif_result (JValue.obj fs) = Except.ok default_result ∧
    create_sarif_rule (JValue.obj fs) = Except.ok default_rule := by
  constructor
  · have he := create_sarif_result_eval fs [] [] [] "medium"
      (by rw [h1]; rfl) (by rw [h2]; rfl) (by rw [h3]; rfl) (by rw [h4]; rfl)
    rw [he]
    rfl
  · have he := create_sarif_rule_eval fs [] [] []
      (by rw [h1]; rfl) (by rw [h2]; rfl) (by rw [h4]; rfl)
    rw [he]
    rfl

/-- Witness for C3 at the concrete empty mapping. -/
theorem builders_default_on_missing_keys_witness :
    create_sarif_result (JValue.obj []) = Except.ok default_result ∧
    create_sarif_rule (JValue.obj []) = Except.ok default_rule :=
  builders_default_on_missing_keys [] rfl rfl rfl rfl

/-- C1: whenever the conversion succeeds, the output rules and results arrays
both have the length of the extracted vulnerability list, and the i-th rule
and i-th result are exactly the records built from the i-th vulnerability
(input order preserved, no deduplication). -/
theorem sarif_parallel_arrays (a : JValue) (vulns : List JValue) (doc : JValue)
    (hv : extract_vulns a = Except.ok vulns)
    (hd : convert_audit_to_sarif a = Except.ok doc) :
    (sarifRules doc).length = vulns.length ∧
    (sarifResults doc).length = vulns.length ∧
    ∀ i, i < vulns.length →
      create_sarif_rule (vulns.getD i JValue.null) =
        Except.ok ((sarifRules doc).getD i JValue.null) ∧
      create_sarif_result (vulns.getD i JValue.null) =
        Except.ok ((sarifResults doc).getD i JValue.null) := by
  obtain ⟨vulns2, ps, hv2, hp, hdoc⟩ := convert_ok_inv a doc hd
  rw [hv] at hv2
  injection hv2 with hv2
  subst hv2
  subst hdoc
  rw [sarifRules_mk, sarifResults_mk]
  have hf := build_pairs_spec vulns ps hp
  have hlen := hf.length_eq
  refine ⟨by simp [hlen], by simp [hlen], ?_⟩
  intro i hi
  have hptw := forall2_getD hf JValue.null (JValue.null, JValue.null) i hi
  have e1 : (ps.map Prod.fst).getD i JValue.null =
      (ps.getD i (JValue.null, JValue.null)).1 :=
    getD_map Prod.fst ps i (JValue.null, JValue.null)
  have e2 : (ps.map Prod.snd).getD i JValue.null =
      (ps.getD i (JValue.null, JValue.null)).2 :=
    getD_map Prod.snd ps i (JValue.null, JValue.null)
  exact ⟨by rw [e1]; exact hptw.1, by rw [e2]; exact hptw.2⟩

/-- Witness for C1 at the spec's section 8 scenario input. -/
theorem sarif_parallel_arrays_witness :
    (sarifRules scenario_doc).length = [scenario_vuln].length ∧
    (sarifResults scenario_doc).length = [scenario_vuln].length :=
  ⟨(sarif_parallel_arrays scenario_input [scenario_vuln] scenario_doc rfl rfl).1,
   (sarif_parallel_arrays scenario_input [scenario_vuln] scenario_doc rfl rfl).2.1⟩

/-- C9: in a successfully converted document, the i-th result's `ruleId`
equals the i-th rule's `id`, so every result references its parallel rule. -/
theorem results_reference_rules (a doc : JValue)
    (h : convert_audit_to_sarif a = Except.ok doc)
    (i : Nat) (hi : i < (sarifResults doc).length) :
    jget ((sarifResults doc).getD i JValue.null) "ruleId" =
    jget ((sarifRules doc).getD i JValue.null) "id" := by
  obtain ⟨vulns, ps, hv, hp, hdoc⟩ := convert_ok_inv a doc h
  subst hdoc
  rw [sarifResults_mk] at hi
  rw [sarifResults_mk, sarifRules_mk]
  have hf := build_pairs_spec vulns ps hp
  have hi2 : i < vulns.length := by
    rw [hf.length_eq]
    simpa using hi
  have hptw := forall2_getD hf JValue.null (JValue.null, JValue.null) i hi2
  have e1 : (ps.map Prod.fst).getD i JValue.null =
      (ps.getD i (JValue.null, JValue.null)).1 :=
    getD_map Prod.fst ps i (JValue.null, JValue.null)
  have e2 : (ps.map Prod.snd).getD i JValue.null =
      (ps.getD i (JValue.null, JValue.null)).2 :=
    getD_map Prod.snd ps i (JValue.null, JValue.null)
  rw [e1, e2]
  exact ruleId_matches (vulns.getD i JValue.null) _ _ hptw.1 hptw.2

/-- Witness for C9 at the spec's section 8 scenario input, index 0. -/
theorem results_reference_rules_witness :
    jget ((sarifResults scenario_doc).getD 0 JValue.null) "ruleId" =
    jget ((sarifRules scenario_doc).getD 0 JValue.null) "id" :=
  results_reference_rules scenario_input scenario_doc rfl 0 (by decide)

/-- C4 counterexample: a `vulnerabilities` value that is not a mapping makes
the conversion raise `AttributeError` instead of yielding an empty document,
so the claim's "not a mapping" case is false as stated. -/
theorem nonmapping_vulnerabilities_errors :
    convert_audit_to_sarif (JValue.obj [("vulnerabilities", JValue.str "x")]) =
      Except.error PyError.attributeError := rfl

/-- C4 (amended): if the `vulnerabilities` key is absent, or its value is a
mapping without a `list` key, the conversion succeeds with empty rules and
results and the fixed schema, version, tool-driver and columnKind metadata;
a non-mapping `vulnerabilities` value instead raises `AttributeError`, which
the top level catches (exit 1). -/
theorem empty_when_list_path_absent (fs : List (String × JValue))
    (h : fs.lookup "vulnerabilities" = none ∨
      ∃ gs, fs.lookup "vulnerabilities" = some (JValue.obj gs) ∧
        gs.lookup "list" = none) :
    convert_audit_to_sarif (JValue.obj fs) = Except.ok (mkSarifDoc [] []) ∧
    sarifRules (mkSarifDoc [] []) = [] ∧
    sarifResults (mkSarifDoc [] []) = [] ∧
    jget (mkSarifDoc [] []) "$schema" =
      JValue.str "https://json.schemastore.org/sarif-2.1.0.json" ∧
    jget (mkSarifDoc [] []) "version" = JValue.str "2.1.0" ∧
    jget (jget (jget (sarifRun (mkSarifDoc [] [])) "tool") "driver") "name" =
      JValue.str "cargo-audit" ∧
    jget (sarifRun (mkSarifDoc [] [])) "columnKind" =
      JValue.str "utf16CodeUnits" := by
  refine ⟨?_, rfl, rfl, rfl, rfl, rfl, rfl⟩
  rcases h with h | ⟨gs, h, hg⟩
  · simp [convert_audit_to_sarif, extract_vulns, dictGet, h, pyIter, build_pairs,
      List.lookup]
  · simp [convert_audit_to_sarif, extract_vulns, dictGet, h, hg, pyIter, build_pairs]

/-- Witness for the amended C4 at the concrete empty mapping. -/
theorem empty_when_list_path_absent_witness :
    convert_audit_to_sarif (JValue.obj []) = Except.ok (mkSarifDoc [] []) :=
  (empty_when_list_path_absent [] (Or.inl rfl)).1

/-- C5: for a vulnerability mapping whose sub-records have the shapes the
data model gives them (advisory/package/cvss mappings, severity a string,
each after default substitution), the built result has `ruleId` =
`advisory.id` (default `"UNKNOWN"`), `level` = the severity mapping of the
severity field, `message.text` = `advisory.description` (default
`"Unknown vulnerability"`), exactly one fixed location at `Cargo.toml` line 1
column 1, package fingerprints (default empty strings), `security-severity`
= `cvss.score` (default `5.0`), the fixed tags, and precision `"very-high"`. -/
theorem result_fields (fs afs pfs cfs : List (String × JValue)) (sev : String)
    (h1 : (fs.lookup "advisory").getD (JValue.obj []) = JValue.obj afs)
    (h2 : (fs.lookup "package").getD (JValue.obj []) = JValue.obj pfs)
    (h3 : (fs.lookup "severity").getD (JValue.str "medium") = JValue.str sev)
    (h4 : (fs.lookup "cvss").getD (JValue.obj []) = JValue.obj cfs) :
    create_sarif_result (JValue.obj fs) =
      Except.ok (okValue (create_sarif_result (JValue.obj fs))) ∧
    jget (okValue (create_sarif_result (JValue.obj fs))) "ruleId" =
      (afs.lookup "id").getD (JValue.str "UNKNOWN") ∧
    jget (okValue (create_sarif_result (JValue.obj fs))) "level" =
      JValue.str (convert_severity sev) ∧
    jget (jget (okValue (create_sarif_result (JValue.obj fs))) "message") "text" =
      (afs.lookup "description").getD (JValue.str "Unknown vulnerability") ∧
    jget (okValue (create_sarif_result (JValue.obj fs))) "locations" =
      JValue.arr [JValue.obj [("physicalLocation", JValue.obj [
        ("artifactLocation", JValue.obj [("uri", JValue.str "Cargo.toml")]),
        ("region", JValue.obj [("startLine", JValue.num 1), ("startColumn", JValue.num 1)])])]] ∧
    jget (jget (okValue (create_sarif_result (JValue.obj fs))) "partialFingerprints") "packageName" =
      (pfs.lookup "name").getD (JValue.str "") ∧
    jget (jget (okValue (create_sarif_result (JValue.obj fs))) "partialFingerprints") "packageVersion" =
      (pfs.lookup "version").getD (JValue.str "") ∧
    jget (jget (okValue (create_sarif_result (JValue.obj fs))) "properties") "security-severity" =
      (cfs.lookup "score").getD (JValue.num 5) ∧
    jget (jget (okValue (create_sarif_result (JValue.obj fs))) "properties") "tags" =
      JValue.arr [JValue.str "security", JValue.str "dependency", JValue.str "vulnerability"] ∧
    jget (jget (okValue (create_sarif_result (JValue.obj fs))) "properties") "precision" =
      JValue.str "very-high" := by
  rw [create_sarif_result_eval fs afs pfs cfs sev h1 h2 h3 h4]
  exact ⟨rfl, rfl, rfl, rfl, rfl, rfl, rfl, rfl, rfl, rfl⟩

/-- Witness for C5 at the spec's section 8 scenario vulnerability. -/
theorem result_fields_witness :
    create_sarif_result scenario_vuln = Except.ok scenario_result ∧
    jget scenario_result "level" = JValue.str "error" ∧
    jget (jget scenario_result "partialFingerprints") "packageName" = JValue.str "foo" ∧
    jget (jget scenario_result "partialFingerprints") "packageVersion" = JValue.str "1.2.3" ∧
    jget (jget scenario_result "properties") "security-severity" = JValue.num 8.1 := by
  have h := result_fields
    [("advisory", JValue.obj [
        ("id", JValue.str "RUSTSEC-2023-0001"), ("title", JValue.str "Bad crate"),
        ("description", JValue.str "desc"), ("url", JValue.str "http://x")]),
     ("package", JValue.obj [("name", JValue.str "foo"), ("version", JValue.str "1.2.3")]),
     ("severity", JValue.str "high"),
     ("cvss", JValue.obj [("score", JValue.num 8.1)])]
    [("id", JValue.str "RUSTSEC-2023-0001"), ("title", JValue.str "Bad crate"),
     ("description", JValue.str "desc"), ("url", JValue.str "http://x")]
    [("name", JValue.str "foo"), ("version", JValue.str "1.2.3")]
    [("score", JValue.num 8.1)]
    "high" rfl rfl rfl rfl
  exact ⟨h.1, rfl, rfl, rfl, rfl⟩

/-- C6: for a vulnerability mapping whose sub-records have the data model's
shapes, the built rule has `id` = `advisory.id` (default `"UNKNOWN"`),
`name` and `shortDescription.text` = `advisory.title` (default
`"Unknown vulnerability"`), `fullDescription.text` = `advisory.description`
(default empty), `help.text` the generated "Update ... to a patched version"
sentence over `package.name` (default `"package"`), `help.markdown` the
generated block with the title heading (default `"Vulnerability"`), the
description body and a references section carrying `advisory.url` (default
empty), `security-severity` = `cvss.score` (default `5.0`), and the fixed
tags. -/
theorem rule_fields (fs afs pfs cfs : List (String × JValue))
    (h1 : (fs.lookup "advisory").getD (JValue.obj []) = JValue.obj afs)
    (h2 : (fs.lookup "package").getD (JValue.obj []) = JValue.obj pfs)
    (h4 : (fs.lookup "cvss").getD (JValue.obj []) = JValue.obj cfs) :
    create_sarif_rule (JValue.obj fs) =
      Except.ok (okValue (create_sarif_rule (JValue.obj fs))) ∧
    jget (okValue (create_sarif_rule (JValue.obj fs))) "id" =
      (afs.lookup "id").getD (JValue.str "UNKNOWN") ∧
    jget (okValue (create_sarif_rule (JValue.obj fs))) "name" =
      (afs.lookup "title").getD (JValue.str "Unknown vulnerability") ∧
    jget (jget (okValue (create_sarif_rule (JValue.obj fs))) "shortDescription") "text" =
      (afs.lookup "title").getD (JValue.str "Unknown vulnerability") ∧
    jget (jget (okValue (create_sarif_rule (JValue.obj fs))) "fullDescription") "text" =
      (afs.lookup "description").getD (JValue.str "") ∧
    jget (jget (okValue (create_sarif_rule (JValue.obj fs))) "help") "text" =
      JValue.str ("Update " ++ pyStr ((pfs.lookup "name").getD (JValue.str "package")) ++
        " to a patched version") ∧
    jget (jget (okValue (create_sarif_rule (JValue.obj fs))) "help") "markdown" =
      JValue.str ("## " ++ pyStr ((afs.lookup "title").getD (JValue.str "Vulnerability")) ++
        "\n\n" ++ pyStr ((afs.lookup "description").getD (JValue.str "")) ++
        "\n\n### References\n- " ++ pyStr ((afs.lookup "url").getD (JValue.str ""))) ∧
    jget (jget (okValue (create_sarif_rule (JValue.obj fs))) "properties") "security-severity" =
      (cfs.lookup "score").getD (JValue.num 5) ∧
    jget (jget (okValue (create_sarif_rule (JValue.obj fs))) "properties") "tags" =
      JValue.arr [JValue.str "security", JValue.str "vulnerability"] := by
  rw [create_sarif_rule_eval fs afs pfs cfs h1 h2 h4]
  exact ⟨rfl, rfl, rfl, rfl, rfl, rfl, rfl, rfl, rfl⟩

/-- Witness for C6 at the spec's section 8 scenario vulnerability. -/
theorem rule_fields_witness :
    create_sarif_rule scenario_vuln = Except.ok scenario_rule ∧
    jget scenario_rule "id" = JValue.str "RUSTSEC-2023-0001" ∧
    jget (jget scenario_rule "help") "text" = JValue.str "Update foo to a patched version" ∧
    jget (jget scenario_rule "help") "markdown" =
      JValue.str "## Bad crate\n\ndesc\n\n### References\n- http://x" := by
  have h := rule_fields
    [("advisory", JValue.obj [
        ("id", JValue.str "RUSTSEC-2023-0001"), ("title", JValue.str "Bad crate"),
        ("description", JValue.str "desc"), ("url", JValue.str "http://x")]),
     ("package", JValue.obj [("name", JValue.str "foo"), ("version", JValue.str "1.2.3")]),
     ("severity", JValue.str "high"),
     ("cvss", JValue.obj [("score", JValue.num 8.1)])]
    [("id", JValue.str "RUSTSEC-2023-0001"), ("title", JValue.str "Bad crate"),
     ("description", JValue.str "desc"), ("url", JValue.str "http://x")]
    [("name", JValue.str "foo"), ("version", JValue.str "1.2.3")]
    [("score", JValue.num 8.1)]
    rfl rfl rfl
  exact ⟨h.1, rfl, rfl, rfl⟩

/-- C7: with an argument count other than exactly two positional arguments
(three entries of `sys.argv` counting the program name), the CLI prints the
usage message, exits with code 1, and attempts no file access. -/
theorem usage_error_on_wrong_arg_count (argv : List String)
    (files : String → Option JValue) (h : argv.length ≠ 3) :
    main_entry argv files =
      { exitCode := 1,
        stdout := ["Usage: audit-to-sarif.py <input.json> <output.sarif>"],
        reads := [], written := [] } := by
  unfold main_entry
  rw [if_pos h]

/-- Witness for C7: one positional argument. -/
theorem usage_error_on_wrong_arg_count_witness :
    main_entry ["audit-to-sarif.py"] (fun _ => none) =
      { exitCode := 1,
        stdout := ["Usage: audit-to-sarif.py <input.json> <output.sarif>"],
        reads := [], written := [] } :=
  usage_error_on_wrong_arg_count ["audit-to-sarif.py"] (fun _ => none) (by decide)

/-- C8: the conversion is deterministic; it is a function of the input alone,
so two runs on equal inputs produce identical output documents. -/
theorem conversion_deterministic (a b : JValue) (h : a = b) :
    convert_audit_to_sarif a = convert_audit_to_sarif b := by
  rw [h]

/-- Witness for C8 at the spec's section 8 scenario input. -/
theorem conversion_deterministic_witness :
    convert_audit_to_sarif scenario_input = convert_audit_to_sarif scenario_input :=
  conversion_deterministic scenario_input scenario_input rfl
